import Mathlib

/-
Verification of the TouchScreenDriver input processor against its
natural-language specification.

The development shallowly embeds the C++ sources (src/cpp/touch_reader.cpp,
src/cpp/ini_parser.cpp, src/cpp/test.cpp) in Lean:
  * `double` is modelled as `ℚ` (all arithmetic appearing in the verified
    paths is exact on the values involved);
  * C `int` / `int64_t` are modelled as `ℤ`;
  * fixed-size arrays are modelled as `List`s of the corresponding length;
  * stateful member functions become explicit state-passing functions;
  * the monotonic clock is an explicit time parameter threaded into each step.
Definitions follow the corresponding source functions statement by statement;
each doc comment names the function being embedded.
-/

-- Rational arithmetic is the computational model of `double` here; restore
-- the reducibility of the arithmetic on `Rat` so that concrete runs of the
-- embedded code can be evaluated by `decide`.
set_option allowUnsafeReducibility true

attribute [semireducible] Rat.add Rat.mul Rat.sub Rat.inv Rat.div

namespace TouchScreenDriver

/-- Model of `std::clamp(v, lo, hi)` on doubles, following the reference
implementation `v < lo ? lo : hi < v ? hi : v`. -/
def clampQ (v lo hi : ℚ) : ℚ :=
  if v < lo then lo else if hi < v then hi else v

/-- Model of `std::lround`: round to nearest integer, halves away from zero. -/
def lroundQ (q : ℚ) : ℤ :=
  if q < 0 then -⌊(1/2 : ℚ) - q⌋ else ⌊q + (1/2 : ℚ)⌋

/-- Calibration mode (`CalibrationMode` in touch_reader.hpp). -/
inductive CalibrationMode
  | MinMax
  | Affine
deriving DecidableEq, Repr, Inhabited

/-- The six affine coefficients (`std::array<double, 6>` in the source). -/
structure Affine6 where
  m0 : ℚ
  m1 : ℚ
  m2 : ℚ
  m3 : ℚ
  m4 : ℚ
  m5 : ℚ
deriving DecidableEq, Repr, Inhabited

/-- The `Calibration` structure of touch_reader.cpp (the richer variant that
the implementation file actually uses: mode, min/max bounds, screen geometry,
offsets, margin and affine coefficients). -/
structure Calibration where
  mode : CalibrationMode
  min_x : ℚ
  max_x : ℚ
  min_y : ℚ
  max_y : ℚ
  screen_width : ℤ
  screen_height : ℤ
  x_factor : ℚ
  y_factor : ℚ
  x_offset : ℤ
  y_offset : ℤ
  margin_percent : ℚ
  affine : Affine6
deriving DecidableEq, Repr

/-- Model of `std::max(0, screen_dim - 1)` (computed on int, used in double
arithmetic). -/
def screenSpan (dim : ℤ) : ℚ := ((max 0 (dim - 1) : ℤ) : ℚ)

/-- One axis of the MinMax branch of `TouchReaderImpl::ApplyCalibration`
(touch_reader.cpp lines 223-262).  The source computes the x and the y axis
inline with the identical sequence of operations; it is factored here into a
per-axis function applied to each axis's bounds, dimension and offset. -/
def minMaxAxisSource (mn mx : ℚ) (dim offset : ℤ) (raw : ℚ) : ℤ :=
  let range := if mx - mn ≤ 0 then (1 : ℚ) else mx - mn
  let clamped_raw := clampQ raw mn mx
  let u := clampQ ((clamped_raw - mn) / range) 0 1
  let screen := u * screenSpan dim + (offset : ℚ)
  lroundQ (clampQ screen (offset : ℚ) ((offset : ℚ) + screenSpan dim))

/-- Embedding of `TouchReaderImpl::ApplyCalibration` (touch_reader.cpp lines 195-263):
affine branch maps through the six coefficients, adds the offset and clamps
to the screen region; MinMax branch per `minMaxAxisSource`. -/
def ApplyCalibration (c : Calibration) (raw_x raw_y : ℤ) : ℤ × ℤ :=
  match c.mode with
  | CalibrationMode.Affine =>
    let mapped_x := c.affine.m0 * (raw_x : ℚ) + c.affine.m1 * (raw_y : ℚ) + c.affine.m2
    let mapped_y := c.affine.m3 * (raw_x : ℚ) + c.affine.m4 * (raw_y : ℚ) + c.affine.m5
    let mapped_x := mapped_x + (c.x_offset : ℚ)
    let mapped_y := mapped_y + (c.y_offset : ℚ)
    (lroundQ (clampQ mapped_x (c.x_offset : ℚ) ((c.x_offset : ℚ) + screenSpan c.screen_width)),
     lroundQ (clampQ mapped_y (c.y_offset : ℚ) ((c.y_offset : ℚ) + screenSpan c.screen_height)))
  | CalibrationMode.MinMax =>
    (minMaxAxisSource c.min_x c.max_x c.screen_width c.x_offset (raw_x : ℚ),
     minMaxAxisSource c.min_y c.max_y c.screen_height c.y_offset (raw_y : ℚ))

/-- The MinMax axis map exactly as the specification words it (spec §4.3):
clamp raw to the interval from min to max; normalise to the unit interval,
a range collapsed to zero being treated as 1; multiply by
max(0, screen_dim - 1); add the offset; clamp to the screen region; round to
nearest.  Written from the spec, to be compared with the source embedding. -/
def minMaxAxisSpec (mn mx : ℚ) (dim offset : ℤ) (raw : ℤ) : ℤ :=
  let clamped := clampQ (raw : ℚ) mn mx
  let range := if mx - mn ≤ 0 then (1 : ℚ) else mx - mn
  let u := (clamped - mn) / range
  let screen := u * screenSpan dim + (offset : ℚ)
  lroundQ (clampQ screen (offset : ℚ) ((offset : ℚ) + screenSpan dim))

/-- Embedding of `MAX_EVENTS` (touch_reader.cpp line 26). -/
def MAX_EVENTS : ℕ := 32

/-- The queue step of `TouchReaderImpl::AddEvent` (touch_reader.cpp lines
324-332): push the event at the back, then pop the front when the size
exceeds `MAX_EVENTS`.  The front of the queue is the head of the list. -/
def addEventQueue {α : Type} (q : List α) (e : α) : List α :=
  let pushed := q ++ [e]
  if MAX_EVENTS < pushed.length then pushed.tail else pushed

/-- Embedding of `TouchReaderImpl::GetNextEvent` (touch_reader.cpp lines 581-591): return
the front of the queue and remove it, or nothing when the queue is empty. -/
def getNextEvent {α : Type} (q : List α) : Option (α × List α) :=
  match q with
  | [] => none
  | e :: rest => some (e, rest)

/-- Repeatedly dequeue through `getNextEvent` until the queue is empty,
collecting the returned events in order. -/
def drainQueue {α : Type} (q : List α) : List α :=
  match h : getNextEvent q with
  | none => []
  | some er => er.1 :: drainQueue er.2
termination_by q.length
decreasing_by
  cases q with
  | nil => simp [getNextEvent] at h
  | cons a t =>
    simp only [getNextEvent, Option.some.injEq] at h
    rw [← h]
    simp

/-- Enqueue a whole list of events, one `AddEvent` at a time, starting from
the empty queue. -/
def enqueueAll {α : Type} (es : List α) : List α :=
  List.foldl addEventQueue [] es

/-- Embedding of `MAX_SLOTS` (touch_reader.cpp line 24). -/
def MAX_SLOTS : ℕ := 10

/-- Embedding of `TouchReaderImpl::TouchData` (touch_reader.cpp lines 87-96), with the
same default member initialisers. -/
structure TouchData where
  tracking_id : ℤ := -1
  raw_x : ℤ := 0
  raw_y : ℤ := 0
  x : ℤ := 0
  y : ℤ := 0
  start_x : ℤ := 0
  start_y : ℤ := 0
  timestamp : ℤ := 0
deriving DecidableEq, Repr, Inhabited

/-- The freshly initialised `touches_[MAX_SLOTS]` array (every slot empty). -/
def initTouches : List TouchData := List.replicate MAX_SLOTS {}

/-- A slot contributes to events when `tracking_id >= 0`. -/
def isActive (d : TouchData) : Bool := 0 ≤ d.tracking_id

/-- The active slots, in slot order. -/
def activeTouches (ts : List TouchData) : List TouchData := ts.filter isActive

/-- Embedding of `TouchReaderImpl::GetTouchCount` (touch_reader.cpp lines 516-523). -/
def GetTouchCount (ts : List TouchData) : ℕ := (activeTouches ts).length

/-- The counting loop of `TouchReaderImpl::GetTouchCoordinates`
(touch_reader.cpp lines 526-540): walk the slots in order, count the active
ones, and when the count reaches `index` return that slot's calibrated
coordinates. -/
def getTouchCoordinatesAux (ts : List TouchData) (index count : ℤ) : Option (ℤ × ℤ) :=
  match ts with
  | [] => none
  | d :: rest =>
    if 0 ≤ d.tracking_id then
      if count = index then some (d.x, d.y)
      else getTouchCoordinatesAux rest index (count + 1)
    else getTouchCoordinatesAux rest index count

/-- Embedding of `TouchReaderImpl::GetTouchCoordinates`: `none` models returning false
without touching the output parameters. -/
def GetTouchCoordinates (ts : List TouchData) (index : ℤ) : Option (ℤ × ℤ) :=
  getTouchCoordinatesAux ts index 0

/-- The counting loop of `TouchReaderImpl::GetRawTouchCoordinates`
(touch_reader.cpp lines 543-557), identical but returning the raw pair. -/
def getRawTouchCoordinatesAux (ts : List TouchData) (index count : ℤ) : Option (ℤ × ℤ) :=
  match ts with
  | [] => none
  | d :: rest =>
    if 0 ≤ d.tracking_id then
      if count = index then some (d.raw_x, d.raw_y)
      else getRawTouchCoordinatesAux rest index (count + 1)
    else getRawTouchCoordinatesAux rest index count

/-- Embedding of `TouchReaderImpl::GetRawTouchCoordinates`. -/
def GetRawTouchCoordinates (ts : List TouchData) (index : ℤ) : Option (ℤ × ℤ) :=
  getRawTouchCoordinatesAux ts index 0

/-- Embedding of `EventType` (touch_reader.hpp lines 17-30). -/
inductive EventType
  | TouchDown
  | TouchUp
  | TouchMove
  | SwipeLeft
  | SwipeRight
  | SwipeUp
  | SwipeDown
  | PinchIn
  | PinchOut
  | LongPress
  | DoubleTap
  | Rotate
deriving DecidableEq, Repr, Inhabited

/-- Embedding of `TouchEvent` as filled in by `TouchReaderImpl::AddEvent`: discriminator,
touch count, primary coordinates, auxiliary value, timestamp and the snapshot
of the active slots at emission time. -/
structure TouchEvent where
  type : EventType
  touch_count : ℤ
  x : ℤ
  y : ℤ
  value : ℤ
  timestamp : ℤ
  touches : List TouchData
deriving DecidableEq, Repr, Inhabited

/-- Gesture thresholds (touch_reader.cpp lines 29-32). -/
def SWIPE_MIN_DISTANCE : ℤ := 50

def PINCH_THRESHOLD : ℤ := 20

def LONG_PRESS_THRESHOLD_MS : ℤ := 500

def DOUBLE_TAP_THRESHOLD_MS : ℤ := 300

/-- Linux evdev event type codes used by the reader loop. -/
def EV_SYN : ℤ := 0

def EV_KEY : ℤ := 1

def EV_REL : ℤ := 2

def EV_ABS : ℤ := 3

def SYN_REPORT : ℤ := 0

def ABS_X : ℤ := 0

def ABS_Y : ℤ := 1

def ABS_MT_SLOT : ℤ := 47

def ABS_MT_TRACKING_ID : ℤ := 57

def ABS_MT_POSITION_X : ℤ := 53

def ABS_MT_POSITION_Y : ℤ := 54

def REL_X : ℤ := 0

def REL_Y : ℤ := 1

def BTN_LEFT : ℤ := 272

def BTN_TOOL_PEN : ℤ := 320

def BTN_TOUCH : ℤ := 330

/-- One kernel `input_event` record: type, code, value. -/
structure InputEvent where
  type : ℤ
  code : ℤ
  value : ℤ
deriving DecidableEq, Repr

/-- The mutable state of a `TouchReaderImpl` relevant to the reader loop and
gesture detection, plus a trace `emitted` of every event that `AddEvent` has
delivered (in order) for reasoning about emissions. -/
structure ReaderState where
  touches : List TouchData
  current_slot : ℤ
  event_queue : List TouchEvent
  last_tap_time : ℤ
  last_tap_x : ℤ
  last_tap_y : ℤ
  prev_touch_count : ℤ
  prev_distance : ℤ
  gesture_tracking : Bool
  gesture_start_touches : List TouchData
  calibration : Calibration
  device_has_btn_touch : Bool
  updated : Bool
  emitted : List TouchEvent
deriving Repr

/-- Read `touches_[i]` (slots outside the array yield the default record;
the verified scenarios only index with in-range slots). -/
def getSlot (ts : List TouchData) (i : ℤ) : TouchData := ts.getD i.toNat {}

/-- Write `touches_[i]` through an update function. -/
def modifySlot (ts : List TouchData) (i : ℤ) (f : TouchData → TouchData) : List TouchData :=
  ts.set i.toNat (f (getSlot ts i))

/-- Embedding of `TouchReaderImpl::AddEvent` (touch_reader.cpp lines 295-340): build the
event, snapshot the active touches into it, push it into the bounded queue
(dropping the oldest element past MAX_EVENTS) and record it in the delivery
trace (condition-variable wakeup and the user callback carry no state that is
modelled). -/
def AddEvent (st : ReaderState) (now : ℤ) (t : EventType) (touch_count x y value : ℤ) :
    ReaderState :=
  let evt : TouchEvent :=
    { type := t, touch_count := touch_count, x := x, y := y, value := value,
      timestamp := now, touches := activeTouches st.touches }
  { st with
    event_queue := addEventQueue st.event_queue evt,
    emitted := st.emitted ++ [evt] }

/-- Embedding of `TouchReaderImpl::CalculateDistance` (touch_reader.cpp lines 288-292):
Euclidean distance truncated to int; the double `sqrt` of an integer sum of
squares truncated by the int cast is the integer square root. -/
def CalculateDistance (t1 t2 : TouchData) : ℤ :=
  (Int.toNat ((t1.x - t2.x) * (t1.x - t2.x) + (t1.y - t2.y) * (t1.y - t2.y))).sqrt

/-- The first active slot (`t1` in `DetectGestures`). -/
def firstActive (ts : List TouchData) : Option TouchData := (activeTouches ts).head?

/-- The second active slot (`t2` in `DetectGestures`). -/
def secondActive (ts : List TouchData) : Option TouchData := (activeTouches ts).get? 1

/-- The centroid loop of `DetectGestures`: sum the calibrated coordinates of
the active slots and divide (C int division) by the count; zero when no touch
is active. -/
def primaryOf (ts : List TouchData) : ℤ × ℤ :=
  let c : ℤ := (GetTouchCount ts : ℤ)
  if 0 < c then
    (Int.tdiv (((activeTouches ts).map TouchData.x).sum) c,
     Int.tdiv (((activeTouches ts).map TouchData.y).sum) c)
  else (0, 0)

/-- Embedding of `TouchReaderImpl::DetectGestures` (touch_reader.cpp lines 1155-1285),
with the clock reading `GetTimestampMs()` supplied as `now`.  Every branch
follows the source in order: TouchDown (freeze starts, snapshot the table
into `gesture_start_touches_`), TouchUp (then LongPress over all snapshot
slots, DoubleTap, Swipe over the first snapshot slot), TouchMove, Pinch, and
finally `prev_touch_count_ = touch_count`. -/
def DetectGestures (now : ℤ) (st0 : ReaderState) : ReaderState :=
  let touch_count : ℤ := (GetTouchCount st0.touches : ℤ)
  let prev : ℤ := st0.prev_touch_count
  let t1 := firstActive st0.touches
  let t2 := secondActive st0.touches
  let primary_x := (primaryOf st0.touches).1
  let primary_y := (primaryOf st0.touches).2
  let current_time := now
  -- touch down
  let st1 :=
    if 0 < touch_count ∧ prev = 0 then
      let s := AddEvent st0 now EventType.TouchDown touch_count primary_x primary_y 0
      let s := { s with gesture_tracking := true, gesture_start_touches := s.touches }
      { s with touches := s.touches.map (fun d =>
          if 0 ≤ d.tracking_id then
            { d with start_x := d.x, start_y := d.y, timestamp := current_time }
          else d) }
    else st0
  -- touch up
  let st2 :=
    if touch_count = 0 ∧ 0 < prev then
      let s := AddEvent st1 now EventType.TouchUp 0 primary_x primary_y 0
      let s := { s with gesture_tracking := false }
      -- long press: every snapshot slot that stayed within 20 px for >= 500 ms
      let s := s.gesture_start_touches.foldl (fun acc g =>
          if 0 ≤ g.tracking_id then
            if |g.x - g.start_x| < 20 ∧ |g.y - g.start_y| < 20 ∧
                LONG_PRESS_THRESHOLD_MS ≤ current_time - g.timestamp then
              AddEvent acc now EventType.LongPress 1 g.x g.y 0
            else acc
          else acc) s
      -- double tap
      let s :=
        if prev = 1 then
          let s2 :=
            if |primary_x - s.last_tap_x| < 30 ∧ |primary_y - s.last_tap_y| < 30 ∧
                current_time - s.last_tap_time < DOUBLE_TAP_THRESHOLD_MS then
              AddEvent s now EventType.DoubleTap 1 primary_x primary_y 0
            else s
          { s2 with last_tap_time := current_time, last_tap_x := primary_x,
                    last_tap_y := primary_y }
        else s
      -- swipe: only the first active snapshot slot (the loop breaks)
      let s :=
        if prev = 1 then
          match firstActive s.gesture_start_touches with
          | none => s
          | some g =>
            let dx := g.x - g.start_x
            let dy := g.y - g.start_y
            if SWIPE_MIN_DISTANCE < |dx| ∧ |dy| * 2 < |dx| then
              if 0 < dx then AddEvent s now EventType.SwipeRight 1 primary_x primary_y dx
              else AddEvent s now EventType.SwipeLeft 1 primary_x primary_y (-dx)
            else if SWIPE_MIN_DISTANCE < |dy| ∧ |dx| * 2 < |dy| then
              if 0 < dy then AddEvent s now EventType.SwipeDown 1 primary_x primary_y dy
              else AddEvent s now EventType.SwipeUp 1 primary_x primary_y (-dy)
            else s
        else s
      s
    else st1
  -- touch move
  let st3 :=
    if 0 < touch_count ∧ touch_count = prev then
      AddEvent st2 now EventType.TouchMove touch_count primary_x primary_y 0
    else st2
  -- pinch
  let st4 :=
    if touch_count = 2 ∧ prev = 2 then
      match t1, t2 with
      | some a, some b =>
        let current_distance := CalculateDistance a b
        let s :=
          if 0 < st3.prev_distance ∧ PINCH_THRESHOLD < |current_distance - st3.prev_distance| then
            if st3.prev_distance < current_distance then
              AddEvent st3 now EventType.PinchOut 2 primary_x primary_y
                (current_distance - st3.prev_distance)
            else
              AddEvent st3 now EventType.PinchIn 2 primary_x primary_y
                (st3.prev_distance - current_distance)
          else st3
        { s with prev_distance := current_distance }
      | _, _ => st3
    else st3
  { st4 with prev_touch_count := touch_count }

/-- One iteration of the evdev branch of `TouchReaderImpl::ReaderThread`
(touch_reader.cpp lines 1050-1150) on one decoded `input_event`, with the
clock reading supplied as `now`: EV_ABS updates the slot table (recomputing
the calibrated pair on each axis change), EV_KEY toggles the slot-0 contact,
EV_REL accumulates onto slot 0 while active, and a SYN_REPORT with an update
pending runs the gesture detector and clears the pending flag. -/
def processEvent (st : ReaderState) (now : ℤ) (ev : InputEvent) : ReaderState :=
  let st :=
    if ev.type = EV_ABS then
      if ev.code = ABS_MT_SLOT then { st with current_slot := ev.value }
      else if ev.code = ABS_MT_TRACKING_ID then
        let ts := modifySlot st.touches st.current_slot (fun d => { d with tracking_id := ev.value })
        let ts :=
          if 0 ≤ ev.value then
            modifySlot ts st.current_slot (fun d =>
              { d with timestamp := now, start_x := d.x, start_y := d.y })
          else ts
        { st with touches := ts, updated := true }
      else if ev.code = ABS_MT_POSITION_X then
        let d := getSlot st.touches st.current_slot
        let xy := ApplyCalibration st.calibration ev.value d.raw_y
        { st with
          touches := modifySlot st.touches st.current_slot (fun d0 =>
            { d0 with raw_x := ev.value, x := xy.1, y := xy.2 }),
          updated := true }
      else if ev.code = ABS_MT_POSITION_Y then
        let d := getSlot st.touches st.current_slot
        let xy := ApplyCalibration st.calibration d.raw_x ev.value
        { st with
          touches := modifySlot st.touches st.current_slot (fun d0 =>
            { d0 with raw_y := ev.value, x := xy.1, y := xy.2 }),
          updated := true }
      else if ev.code = ABS_X then
        let d := getSlot st.touches 0
        let xy := ApplyCalibration st.calibration ev.value d.raw_y
        { st with
          touches := modifySlot st.touches 0 (fun d0 =>
            { d0 with raw_x := ev.value, x := xy.1, y := xy.2 }),
          updated := true }
      else if ev.code = ABS_Y then
        let d := getSlot st.touches 0
        let xy := ApplyCalibration st.calibration d.raw_x ev.value
        { st with
          touches := modifySlot st.touches 0 (fun d0 =>
            { d0 with raw_y := ev.value, x := xy.1, y := xy.2 }),
          updated := true }
      else st
    else st
  let st :=
    if ev.type = EV_KEY then
      let is_contact_key :=
        ev.code = BTN_TOUCH ∨
          (¬ st.device_has_btn_touch ∧ (ev.code = BTN_TOOL_PEN ∨ ev.code = BTN_LEFT))
      if is_contact_key then
        if ev.value ≠ 0 then
          if (getSlot st.touches 0).tracking_id < 0 then
            { st with
              touches := modifySlot st.touches 0 (fun d =>
                { d with tracking_id := 0, timestamp := now, start_x := d.x, start_y := d.y }),
              updated := true }
          else { st with updated := true }
        else
          { st with
            touches := modifySlot st.touches 0 (fun d => { d with tracking_id := -1 }),
            updated := true }
      else st
    else st
  let st :=
    if ev.type = EV_REL then
      if 0 ≤ (getSlot st.touches 0).tracking_id then
        if ev.code = REL_X then
          let d := getSlot st.touches 0
          let xy := ApplyCalibration st.calibration (d.raw_x + ev.value) d.raw_y
          { st with
            touches := modifySlot st.touches 0 (fun d0 =>
              { d0 with raw_x := d0.raw_x + ev.value, x := xy.1, y := xy.2 }),
            updated := true }
        else if ev.code = REL_Y then
          let d := getSlot st.touches 0
          let xy := ApplyCalibration st.calibration d.raw_x (d.raw_y + ev.value)
          { st with
            touches := modifySlot st.touches 0 (fun d0 =>
              { d0 with raw_y := d0.raw_y + ev.value, x := xy.1, y := xy.2 }),
            updated := true }
        else st
      else st
    else st
  if ev.type = EV_SYN ∧ ev.code = SYN_REPORT ∧ st.updated then
    { DetectGestures now st with updated := false }
  else st

/-- Feed a timed event stream through the reader loop. -/
def runEvents (st : ReaderState) (evs : List (ℤ × InputEvent)) : ReaderState :=
  List.foldl (fun s te => processEvent s te.1 te.2) st evs

/-- The calibration installed by the `TouchReaderImpl` constructor
(touch_reader.cpp lines 165-187). -/
def initCalibration : Calibration :=
  { mode := CalibrationMode.MinMax,
    min_x := 0, max_x := 40640, min_y := 0, max_y := 30480,
    screen_width := 800, screen_height := 480,
    x_factor := 800 / max 1 (40640 - 0),
    y_factor := 480 / max 1 (30480 - 0),
    x_offset := 0, y_offset := 0, margin_percent := 0,
    affine := ⟨1, 0, 0, 0, 1, 0⟩ }

/-- Embedding of `TouchReaderImpl::SetCalibration` (touch_reader.cpp lines 659-684). -/
def SetCalibration (c : Calibration) (min_x max_x min_y max_y screen_width screen_height : ℤ) :
    Calibration :=
  let range_x : ℚ := (max_x : ℚ) - (min_x : ℚ)
  let range_y : ℚ := (max_y : ℚ) - (min_y : ℚ)
  let range_x := if range_x ≤ 0 then 1 else range_x
  let range_y := if range_y ≤ 0 then 1 else range_y
  { c with
    mode := CalibrationMode.MinMax,
    min_x := (min_x : ℚ), max_x := (max_x : ℚ),
    min_y := (min_y : ℚ), max_y := (max_y : ℚ),
    screen_width := screen_width, screen_height := screen_height,
    x_factor := (screen_width : ℚ) / range_x,
    y_factor := (screen_height : ℚ) / range_y,
    margin_percent := 0,
    affine := ⟨1, 0, 0, 0, 1, 0⟩ }

/-- Embedding of `TouchReaderImpl::SetAffineCalibration` (touch_reader.cpp lines 686-695). -/
def SetAffineCalibration (c : Calibration) (m : Affine6) (screen_width screen_height : ℤ) :
    Calibration :=
  { c with
    mode := CalibrationMode.Affine,
    affine := m,
    screen_width := screen_width, screen_height := screen_height,
    x_factor := 1, y_factor := 1 }

/-- Embedding of `TouchReaderImpl::SetCalibrationMargin` (touch_reader.cpp lines 697-700). -/
def SetCalibrationMargin (c : Calibration) (margin_percent : ℚ) : Calibration :=
  { c with margin_percent := margin_percent }

/-- Embedding of `TouchReaderImpl::SetCalibrationOffset` (touch_reader.cpp lines 703-707). -/
def SetCalibrationOffset (c : Calibration) (x_offset y_offset : ℤ) : Calibration :=
  { c with x_offset := x_offset, y_offset := y_offset }

/-- A freshly constructed reader (constructor plus the re-initialisation at
the top of `ReaderThread`) with calibration `c`. -/
def initReaderState (c : Calibration) : ReaderState :=
  { touches := initTouches, current_slot := 0, event_queue := [],
    last_tap_time := 0, last_tap_x := 0, last_tap_y := 0,
    prev_touch_count := 0, prev_distance := 0, gesture_tracking := false,
    gesture_start_touches := initTouches, calibration := c,
    device_has_btn_touch := false, updated := false, emitted := [] }

/-- The calibration of scenario S1: min=(0,0), max=(4095,4095),
screen=(800,480), offset=(0,0). -/
def s1Calibration : Calibration :=
  SetCalibration initCalibration 0 4095 0 4095 800 480

/-- The S1 input stream `MT_SLOT 0; MT_TRACKING_ID 17; MT_POSITION_X 2048;
MT_POSITION_Y 2048; SYN_REPORT; MT_TRACKING_ID -1; SYN_REPORT`, entering the
reader at monotonic times 1000 ms (down batch) and 1100 ms (up batch). -/
def s1Events : List (ℤ × InputEvent) :=
  [ (1000, ⟨EV_ABS, ABS_MT_SLOT, 0⟩),
    (1000, ⟨EV_ABS, ABS_MT_TRACKING_ID, 17⟩),
    (1000, ⟨EV_ABS, ABS_MT_POSITION_X, 2048⟩),
    (1000, ⟨EV_ABS, ABS_MT_POSITION_Y, 2048⟩),
    (1000, ⟨EV_SYN, SYN_REPORT, 0⟩),
    (1100, ⟨EV_ABS, ABS_MT_TRACKING_ID, -1⟩),
    (1100, ⟨EV_SYN, SYN_REPORT, 0⟩) ]

/-- Every event the reader delivers on the S1 stream, in order. -/
def s1Trace : List TouchEvent :=
  (runEvents (initReaderState s1Calibration) s1Events).emitted

/-- The observable summary of an emitted event: type, count, x, y. -/
def evSummary (e : TouchEvent) : EventType × ℤ × ℤ × ℤ :=
  (e.type, e.touch_count, e.x, e.y)

/-- The C4 stream: a genuine right swipe with the same calibration — contact
down at raw (0, 0), two position updates to raw x = 2000 and raw x = 4095
(calibrated x goes 0, 390, 799), then release. -/
def swipeEvents : List (ℤ × InputEvent) :=
  [ (1000, ⟨EV_ABS, ABS_MT_SLOT, 0⟩),
    (1000, ⟨EV_ABS, ABS_MT_TRACKING_ID, 5⟩),
    (1000, ⟨EV_ABS, ABS_MT_POSITION_X, 0⟩),
    (1000, ⟨EV_ABS, ABS_MT_POSITION_Y, 0⟩),
    (1000, ⟨EV_SYN, SYN_REPORT, 0⟩),
    (1020, ⟨EV_ABS, ABS_MT_POSITION_X, 2000⟩),
    (1020, ⟨EV_SYN, SYN_REPORT, 0⟩),
    (1040, ⟨EV_ABS, ABS_MT_POSITION_X, 4095⟩),
    (1040, ⟨EV_SYN, SYN_REPORT, 0⟩),
    (1060, ⟨EV_ABS, ABS_MT_TRACKING_ID, -1⟩),
    (1060, ⟨EV_SYN, SYN_REPORT, 0⟩) ]

/-- Every event the reader delivers on the C4 swipe stream, in order. -/
def swipeTrace : List TouchEvent :=
  (runEvents (initReaderState s1Calibration) swipeEvents).emitted

/-- Whether an emitted event is one of the four swipe gestures. -/
def isSwipeEvent (e : TouchEvent) : Bool :=
  match e.type with
  | EventType.SwipeLeft => true
  | EventType.SwipeRight => true
  | EventType.SwipeUp => true
  | EventType.SwipeDown => true
  | _ => false

/-- The process-level state of a `TouchReaderImpl` seen by `Start`, `Stop`,
`EnableMitm`, `RunCalibration` and the event accessors: the atomic running
flag, whether the source descriptor `fd_` is open, whether the source is
exclusively grabbed, whether the synthetic uinput device exists, the MITM
flag and the event queue. -/
structure SysState where
  running : Bool
  fd_open : Bool
  grabbed_source : Bool
  uinput_open : Bool
  mitm_enabled : Bool
  event_queue : List TouchEvent
deriving DecidableEq, Repr

/-- The operating-system responses the reader cannot control: whether opening
and materialising `/dev/uinput` succeeds, and whether `EVIOCGRAB` succeeds. -/
structure MitmEnv where
  uinput_available : Bool
  grab_succeeds : Bool
deriving DecidableEq, Repr

/-- A reader on which `Start` was never called (or whose construction just
finished): nothing open, nothing running, queue empty. -/
def initSysState : SysState :=
  { running := false, fd_open := false, grabbed_source := false,
    uinput_open := false, mitm_enabled := false, event_queue := [] }

/-- Embedding of `TouchReaderImpl::InitUinput` (touch_reader.cpp lines 853-895): no-op
when the device already exists; otherwise create it when the environment
allows, reporting failure otherwise. -/
def InitUinput (env : MitmEnv) (s : SysState) : Bool × SysState :=
  if s.uinput_open then (true, s)
  else if env.uinput_available then (true, { s with uinput_open := true })
  else (false, s)

/-- Embedding of `TouchReaderImpl::DestroyUinput` (touch_reader.cpp lines 897-903). -/
def DestroyUinput (s : SysState) : SysState := { s with uinput_open := false }

/-- Embedding of `TouchReaderImpl::EnableMitm` (touch_reader.cpp lines 931-952): on
enable, create the synthetic device (failure aborts), then attempt the
exclusive grab only when requested, the source descriptor is open and not
already grabbed (grab failure merely logs), and set the MITM flag; on
disable, release the grab, destroy the synthetic device, clear the flag. -/
def EnableMitm (env : MitmEnv) (s : SysState) (enable grab_source : Bool) :
    Bool × SysState :=
  if enable then
    match InitUinput env s with
    | (false, s1) => (false, s1)
    | (true, s1) =>
      let s2 :=
        if grab_source ∧ s1.fd_open ∧ ¬ s1.grabbed_source then
          (if env.grab_succeeds then { s1 with grabbed_source := true } else s1)
        else s1
      (true, { s2 with mitm_enabled := true })
  else
    let s1 := if s.grabbed_source ∧ s.fd_open then { s with grabbed_source := false } else s
    (true, { (DestroyUinput s1) with mitm_enabled := false })

/-- Embedding of `TouchReaderImpl::Stop` (touch_reader.cpp lines 491-508): when running,
clear the running flag, join the reader, release the grab, close the source,
destroy the synthetic device and clear the MITM flag.  The event queue is
not touched. -/
def Stop (s : SysState) : SysState :=
  if s.running then
    { s with running := false, grabbed_source := false, fd_open := false,
             uinput_open := false, mitm_enabled := false }
  else s

/-- The entry guard of `TouchReaderImpl::RunCalibration` (touch_reader.cpp
line 1289): when the reader is not running it returns false immediately,
with no state change.  The interactive four-corner routine that follows on a
running reader involves real-time prompts and is represented by `none`. -/
def RunCalibration (s : SysState) : Option (Bool × SysState) :=
  if s.running = false then some (false, s) else none

/-- The outcome of one `WaitForEvent` call as far as it is decided
synchronously. -/
inductive WaitOutcome
  | ret (ev : Option TouchEvent) (q : List TouchEvent)
  | blocks
deriving DecidableEq, Repr

/-- The synchronous paths of `TouchReaderImpl::WaitForEvent`
(touch_reader.cpp lines 594-649): an immediate `false` when the reader is
not running — before the queue is even examined; the front of a non-empty
queue; an immediate `false` on a zero timeout; otherwise the call suspends on
the condition variable (`blocks` — the suspension itself involves real time
and the other thread and is not modelled further). -/
def WaitForEvent (s : SysState) (timeout_ms : ℤ) : WaitOutcome :=
  if s.running = false then WaitOutcome.ret none s.event_queue
  else
    match s.event_queue with
    | e :: rest => WaitOutcome.ret (some e) rest
    | [] => if timeout_ms = 0 then WaitOutcome.ret none [] else WaitOutcome.blocks

/-- A stored INI value.  The source stores strings; a numeric field written
by `SaveCalibration` is modelled as the exact rational denoted by its
decimal text (`num q`), any other string as `str`. -/
inductive IniValue
  | str (s : String)
  | num (q : ℚ)
deriving DecidableEq, Repr

/-- Embedding of `Config::IniData` (ini_parser.hpp): sections of key/value pairs.  The
unordered map with assignment semantics is modelled as a flat association
list keyed by (section, key). -/
structure IniData where
  entries : List (String × String × IniValue)
deriving DecidableEq, Repr

/-- Embedding of `Config::GetValue` (ini_parser.cpp lines 90-100). -/
def GetValue (d : IniData) (sec key : String) : Option IniValue :=
  (d.entries.find? (fun e => e.1 == sec && e.2.1 == key)).map (fun e => e.2.2)

/-- Assignment into the association list: overwrite the entry for
(section, key) when present, append it otherwise. -/
def setEntry (es : List (String × String × IniValue)) (sec key : String) (v : IniValue) :
    List (String × String × IniValue) :=
  match es with
  | [] => [(sec, key, v)]
  | e :: rest =>
    if e.1 == sec && e.2.1 == key then (sec, key, v) :: rest
    else e :: setEntry rest sec key v

/-- Embedding of `Config::SetValue` (ini_parser.cpp lines 102-104): assign into the
section, overwriting an existing key (`sections[section][key] = value`). -/
def SetValue (d : IniData) (sec key : String) (v : IniValue) : IniData :=
  ⟨setEntry d.entries sec key v⟩

/-- Embedding of `Config::Trim` (ini_parser.cpp lines 25-36). -/
def Trim (s : String) : String :=
  String.mk (((s.data.dropWhile Char.isWhitespace).reverse.dropWhile Char.isWhitespace).reverse)

/-- The character loop of `IsComment` (ini_parser.cpp lines 12-21): true when
the first non-space character is '#' or ';', or the line is all spaces. -/
def isCommentChars : List Char → Bool
  | [] => true
  | c :: rest =>
    if c = '#' then true
    else if c = ';' then true
    else if c.isWhitespace then isCommentChars rest
    else false

/-- Predicate `IsComment` on a line. -/
def IsComment (s : String) : Bool := isCommentChars s.data

/-- Model of `trimmed.find('=')` with the key and value parts around the first '='. -/
def splitAtEq : List Char → Option (List Char × List Char)
  | [] => none
  | c :: rest =>
    if c = '=' then some ([], rest)
    else (splitAtEq rest).map (fun p => (c :: p.1, p.2))

/-- One loop iteration of `Config::LoadIni` (ini_parser.cpp lines 47-66):
skip blank and comment lines, switch section on a bracketed line, store a
key=value pair, silently skip a line without '='. -/
def loadIniLine (cur : String) (d : IniData) (line : String) : String × IniData :=
  let trimmed := Trim line
  if trimmed.data = [] ∨ IsComment trimmed then (cur, d)
  else if trimmed.data.head? = some '[' ∧ trimmed.data.getLast? = some ']' then
    (Trim (String.mk ((trimmed.data.drop 1).dropLast)), d)
  else
    match splitAtEq trimmed.data with
    | none => (cur, d)
    | some p =>
      (cur, SetValue d cur (Trim (String.mk p.1)) (IniValue.str (Trim (String.mk p.2))))

/-- Embedding of `Config::LoadIni` (ini_parser.cpp lines 38-69) on the lines of a file
that opened: the function never fails on content — malformed lines are
skipped — so a readable file always parses and `LoadIni` returns true.  The
initial section is "default". -/
def LoadIni (lines : List String) : IniData :=
  (lines.foldl (fun acc line => loadIniLine acc.1 acc.2 line) ("default", ⟨[]⟩)).2

/-- Longest digit prefix of a character list, with the rest. -/
def takeDigits : List Char → List Char × List Char
  | [] => ([], [])
  | c :: rest =>
    if c.isDigit then
      let p := takeDigits rest
      (c :: p.1, p.2)
    else ([], c :: rest)

/-- The natural number denoted by a digit list. -/
def digitsToNat (ds : List Char) : ℕ :=
  ds.foldl (fun acc c => acc * 10 + (c.toNat - 48)) 0

/-- Model of `std::stoi`'s parse of a leading `[+|-]digits` (the only form
the calibration files contain); `none` models the exception, on which the
caller keeps its fallback. -/
def parseIntChars (cs : List Char) : Option ℤ :=
  let signed : Bool × List Char :=
    match cs with
    | '-' :: rest => (true, rest)
    | '+' :: rest => (false, rest)
    | _ => (false, cs)
  let p := takeDigits signed.2
  if p.1 = [] then none
  else some (if signed.1 then -(digitsToNat p.1 : ℤ) else (digitsToNat p.1 : ℤ))

/-- Model of `std::stoi` on a string (leading whitespace skipped). -/
def parseIntString (s : String) : Option ℤ :=
  parseIntChars (s.data.dropWhile Char.isWhitespace)

/-- Model of `std::stod` restricted to the plain fixed-point decimals
`[+|-]digits[.digits]` that the calibration files contain; `none` models the
exception, on which the caller keeps its fallback. -/
def parseRatString (s : String) : Option ℚ :=
  let cs := s.data.dropWhile Char.isWhitespace
  let signed : Bool × List Char :=
    match cs with
    | '-' :: rest => (true, rest)
    | '+' :: rest => (false, rest)
    | _ => (false, cs)
  let p := takeDigits signed.2
  if p.1 = [] then none
  else
    let val : ℚ :=
      match p.2 with
      | '.' :: rest =>
        let f := takeDigits rest
        (digitsToNat p.1 : ℚ) + (digitsToNat f.1 : ℚ) / ((10 : ℚ) ^ f.1.length)
      | _ => (digitsToNat p.1 : ℚ)
    some (if signed.1 then -val else val)

/-- The rational `q` truncated toward zero: what `std::stoi` reads from the decimal text
denoting `q`. -/
def ratTrunc (q : ℚ) : ℤ := Int.tdiv q.num (q.den : ℤ)

/-- The lambda `get_double` of `LoadCalibration` (touch_reader.cpp lines
718-725). -/
def get_double (v : Option IniValue) (fallback : ℚ) : ℚ :=
  match v with
  | none => fallback
  | some (IniValue.num q) => q
  | some (IniValue.str s) =>
    match parseRatString s with
    | some q => q
    | none => fallback

/-- The lambda `get_int` of `LoadCalibration` (touch_reader.cpp lines
726-733). -/
def get_int (v : Option IniValue) (fallback : ℤ) : ℤ :=
  match v with
  | none => fallback
  | some (IniValue.num q) => ratTrunc q
  | some (IniValue.str s) =>
    match parseIntString s with
    | some n => n
    | none => fallback

/-- Per-character `std::tolower`. -/
def toLowerStr (s : String) : String := String.mk (s.data.map Char.toLower)

def kCalibration : String := "Calibration"

def kAffine : String := "Affine"

def kMetadata : String := "Metadata"

def kMode : String := "mode"

def kMinX : String := "min_x"

def kMaxX : String := "max_x"

def kMinY : String := "min_y"

def kMaxY : String := "max_y"

def kScreenWidth : String := "screen_width"

def kScreenHeight : String := "screen_height"

def kOffsetX : String := "offset_x"

def kOffsetY : String := "offset_y"

def kMarginPercent : String := "margin_percent"

def kM0 : String := "m0"

def kM1 : String := "m1"

def kM2 : String := "m2"

def kM3 : String := "m3"

def kM4 : String := "m4"

def kM5 : String := "m5"

def kSavedWith : String := "saved_with"

/-- Model of `GetValue(data, "Calibration", "mode").value_or("minmax")`.  A numeric
string can never compare equal to "affine" after lowering; a `num` value is
therefore mapped to the (equally non-"affine") empty string. -/
def modeString (d : IniData) : String :=
  match GetValue d kCalibration kMode with
  | some (IniValue.str s) => s
  | some (IniValue.num _) => ""
  | none => "minmax"

/-- The INI branch of `TouchReaderImpl::LoadCalibration` (touch_reader.cpp
lines 717-789) applied to parsed data: read geometry and margin, then either
the affine coefficients (installing an affine calibration) or the min/max
bounds (installing a MinMax calibration and recomputing the factors), with
the current calibration's values as fallbacks. -/
def LoadCalibrationData (cal : Calibration) (data : IniData) : Calibration :=
  let mode_lower := toLowerStr (modeString data)
  let screen_width := get_int (GetValue data kCalibration kScreenWidth) cal.screen_width
  let screen_height := get_int (GetValue data kCalibration kScreenHeight) cal.screen_height
  let offset_x := get_int (GetValue data kCalibration kOffsetX) 0
  let offset_y := get_int (GetValue data kCalibration kOffsetY) 0
  let margin := get_double (GetValue data kCalibration kMarginPercent) 0
  if mode_lower = "affine" then
    let m : Affine6 :=
      ⟨get_double (GetValue data kAffine kM0) cal.affine.m0,
       get_double (GetValue data kAffine kM1) cal.affine.m1,
       get_double (GetValue data kAffine kM2) cal.affine.m2,
       get_double (GetValue data kAffine kM3) cal.affine.m3,
       get_double (GetValue data kAffine kM4) cal.affine.m4,
       get_double (GetValue data kAffine kM5) cal.affine.m5⟩
    let c := SetAffineCalibration cal m screen_width screen_height
    { c with x_offset := offset_x, y_offset := offset_y, margin_percent := margin }
  else
    let min_x := get_double (GetValue data kCalibration kMinX) cal.min_x
    let max_x := get_double (GetValue data kCalibration kMaxX) cal.max_x
    let min_y := get_double (GetValue data kCalibration kMinY) cal.min_y
    let max_y := get_double (GetValue data kCalibration kMaxY) cal.max_y
    let c := SetCalibration cal (lroundQ min_x) (lroundQ max_x) (lroundQ min_y) (lroundQ max_y)
        screen_width screen_height
    let c := { c with min_x := min_x, max_x := max_x, min_y := min_y, max_y := max_y,
                      x_offset := offset_x, y_offset := offset_y, margin_percent := margin }
    let range_x := if max_x - min_x ≤ 0 then (1 : ℚ) else max_x - min_x
    let range_y := if max_y - min_y ≤ 0 then (1 : ℚ) else max_y - min_y
    { c with x_factor := (screen_width : ℚ) / range_x,
             y_factor := (screen_height : ℚ) / range_y }

/-- Embedding of `TouchReaderImpl::LoadCalibration` (touch_reader.cpp lines 715-810) on
the content of a readable file: `Config::LoadIni` cannot fail once the file
opened, so the INI branch always runs and the call returns true.  The legacy
fscanf fallback (lines 791-809) is reached only when the file fails to
open. -/
def LoadCalibration (cal : Calibration) (lines : List String) : Bool × Calibration :=
  (true, LoadCalibrationData cal (LoadIni lines))

/-- Embedding of `to_string_precise` (touch_reader.cpp lines 815-819): fixed 6-decimal
formatting, modelled as the exact rational the printed text denotes — the
value rounded to 6 decimal places (any round-to-nearest tie rule stays
within half of 10⁻⁶, which is all that is used). -/
def round6 (q : ℚ) : ℚ := ((⌊q * 1000000 + (1/2 : ℚ)⌋ : ℤ) : ℚ) / 1000000

/-- Embedding of `TouchReaderImpl::SaveCalibration` (touch_reader.cpp lines 813-846): the
keyed data written to the file; doubles go through `to_string_precise`
(6-decimal rounding), ints through `std::to_string` (exact). -/
def SaveCalibration (cal : Calibration) : IniData :=
  let d : IniData := ⟨[]⟩
  let d := SetValue d kCalibration kMode
    (IniValue.str (if cal.mode = CalibrationMode.Affine then "affine" else "minmax"))
  let d := SetValue d kCalibration kMinX (IniValue.num (round6 cal.min_x))
  let d := SetValue d kCalibration kMaxX (IniValue.num (round6 cal.max_x))
  let d := SetValue d kCalibration kMinY (IniValue.num (round6 cal.min_y))
  let d := SetValue d kCalibration kMaxY (IniValue.num (round6 cal.max_y))
  let d := SetValue d kCalibration kScreenWidth (IniValue.num (cal.screen_width : ℚ))
  let d := SetValue d kCalibration kScreenHeight (IniValue.num (cal.screen_height : ℚ))
  let d := SetValue d kCalibration kOffsetX (IniValue.num (cal.x_offset : ℚ))
  let d := SetValue d kCalibration kOffsetY (IniValue.num (cal.y_offset : ℚ))
  let d := SetValue d kCalibration kMarginPercent (IniValue.num (round6 cal.margin_percent))
  let d :=
    if cal.mode = CalibrationMode.Affine then
      let d := SetValue d kAffine kM0 (IniValue.num (round6 cal.affine.m0))
      let d := SetValue d kAffine kM1 (IniValue.num (round6 cal.affine.m1))
      let d := SetValue d kAffine kM2 (IniValue.num (round6 cal.affine.m2))
      let d := SetValue d kAffine kM3 (IniValue.num (round6 cal.affine.m3))
      let d := SetValue d kAffine kM4 (IniValue.num (round6 cal.affine.m4))
      SetValue d kAffine kM5 (IniValue.num (round6 cal.affine.m5))
    else d
  SetValue d kMetadata kSavedWith (IniValue.str ("touch_reader"))

/-- Whitespace-separated word grouping (helper for the legacy format). -/
def wordsAux (cs : List Char) : List (List Char) × List Char :=
  match cs with
  | [] => ([], [])
  | c :: rest =>
    let p := wordsAux rest
    if c.isWhitespace then
      ((if p.2 = [] then p.1 else p.2 :: p.1), [])
    else (p.1, c :: p.2)

/-- The whitespace-separated words of a character list. -/
def wordsOfChars (cs : List Char) : List (List Char) :=
  let p := wordsAux cs
  if p.2 = [] then p.1 else p.2 :: p.1

/-- The characters of a file's lines, newline-joined. -/
def fileChars (lines : List String) : List Char :=
  lines.foldr (fun l acc => l.data ++ '\n' :: acc) []

/-- The legacy branch of `LoadCalibration` (touch_reader.cpp lines 797-806):
`fscanf("%d %d %d %d %d %d %d %d")` — eight whitespace-separated integers
`min_x max_x min_y max_y screen_w screen_h off_x off_y`.  (In the source
this parse is unreachable for any file that opens, because `LoadIni` has
already succeeded.) -/
def parseLegacyCalibration (lines : List String) : Option (List ℤ) :=
  let vals := (wordsOfChars (fileChars lines)).filterMap parseIntChars
  if 8 ≤ vals.length then some (vals.take 8) else none

/-- The legacy-format calibration file of C5: a single line of eight
whitespace-separated integers. -/
def legacyFile : List String := ["5 4000 7 3999 640 400 10 20"]

/-- The calibration saved in scenario S6/C6: affine mode with six arbitrary
coefficients, screen (1920, 1080), offset (100, 50), margin 0.75. -/
def c6Calibration (a0 a1 a2 a3 a4 a5 : ℚ) : Calibration :=
  SetCalibrationMargin (SetCalibrationOffset
    (SetAffineCalibration initCalibration ⟨a0, a1, a2, a3, a4, a5⟩ 1920 1080) 100 50) (3/4)

/-- The calibration obtained by saving `c6Calibration` and reloading the
produced file. -/
def c6Reloaded (a0 a1 a2 a3 a4 a5 : ℚ) : Calibration :=
  LoadCalibrationData (c6Calibration a0 a1 a2 a3 a4 a5)
    (SaveCalibration (c6Calibration a0 a1 a2 a3 a4 a5))

/-- Embedding of `MonitorInfo` (test.cpp lines 94-106), the fields `computeCtm` reads. -/
structure MonitorInfo where
  x : ℤ
  y : ℤ
  width : ℤ
  height : ℤ
  scale_x : ℚ
  scale_y : ℚ
  rotation : String
deriving DecidableEq, Repr

/-- Embedding of `DesktopLayout` (test.cpp lines 108-115), the fields `computeCtm`
reads. -/
structure DesktopLayout where
  origin_x : ℤ
  origin_y : ℤ
  width : ℤ
  height : ℤ
deriving DecidableEq, Repr

/-- Embedding of `computeCtm` (test.cpp lines 322-396): scale the monitor rectangle and
offsets, pick the six upper coefficients by rotation — for "right" the
source first assigns (0, height, offset_x, width, 0, offset_y) and then
overwrites m1 and m2 ("adjust for vertical orientation"), the final values
being (0, -height, offset_x + height, width, 0, offset_y) — and normalise by
the desktop size; the third row is the constant [0, 0, 1]. -/
def computeCtm (layout : DesktopLayout) (monitor : MonitorInfo) : List ℚ :=
  let desktop_width : ℚ := if (layout.width : ℚ) ≤ 0 then 1 else (layout.width : ℚ)
  let desktop_height : ℚ := if (layout.height : ℚ) ≤ 0 then 1 else (layout.height : ℚ)
  let offset_x : ℚ := ((monitor.x - layout.origin_x : ℤ) : ℚ)
  let offset_y : ℚ := ((monitor.y - layout.origin_y : ℤ) : ℚ)
  let width : ℚ := (monitor.width : ℚ)
  let height : ℚ := (monitor.height : ℚ)
  let width := if 0 < monitor.scale_x then width * monitor.scale_x else width
  let offset_x := if 0 < monitor.scale_x then offset_x * monitor.scale_x else offset_x
  let height := if 0 < monitor.scale_y then height * monitor.scale_y else height
  let offset_y := if 0 < monitor.scale_y then offset_y * monitor.scale_y else offset_y
  let rotation := toLowerStr monitor.rotation
  let m : ℚ × ℚ × ℚ × ℚ × ℚ × ℚ :=
    if rotation = "normal" ∨ rotation = "" then
      (width, 0, offset_x, 0, height, offset_y)
    else if rotation = "inverted" then
      (-width, 0, offset_x + width, 0, -height, offset_y + height)
    else if rotation = "left" then
      (0, height, offset_x, -width, 0, offset_y + width)
    else if rotation = "right" then
      (0, -height, offset_x + height, width, 0, offset_y)
    else
      (width, 0, offset_x, 0, height, offset_y)
  [m.1 / desktop_width, m.2.1 / desktop_width, m.2.2.1 / desktop_width,
   m.2.2.2.1 / desktop_height, m.2.2.2.2.1 / desktop_height, m.2.2.2.2.2 / desktop_height,
   0, 0, 1]

theorem clampQ_of_le (v lo hi : ℚ) (h1 : lo ≤ v) (h2 : v ≤ hi) :
    clampQ v lo hi = v := by
  unfold clampQ
  rw [if_neg (not_lt.mpr h1), if_neg (not_lt.mpr h2)]

theorem clampQ_lower (v lo hi : ℚ) (h : lo ≤ hi) : lo ≤ clampQ v lo hi := by
  unfold clampQ
  split_ifs <;> linarith

theorem clampQ_upper (v lo hi : ℚ) (h : lo ≤ hi) : clampQ v lo hi ≤ hi := by
  unfold clampQ
  split_ifs <;> linarith

theorem clampQ_of_nonpos (v hi : ℚ) (h : v ≤ 0) (hhi : 0 ≤ hi) :
    clampQ v 0 hi = 0 := by
  unfold clampQ
  split_ifs <;> linarith

theorem clampQ_of_le_lower (v lo hi : ℚ) (h : v ≤ lo) (hhi : lo ≤ hi) :
    clampQ v lo hi = lo := by
  unfold clampQ
  split_ifs <;> linarith

theorem lroundQ_intCast (n : ℤ) : lroundQ (n : ℚ) = n := by
  unfold lroundQ
  split_ifs with h
  · have heq : (1/2 : ℚ) - (n : ℚ) = (1/2 : ℚ) + ((-n : ℤ) : ℚ) := by
      push_cast
      ring
    rw [heq, Int.floor_add_int]
    have h0 : ⌊(1/2 : ℚ)⌋ = 0 := by
      rw [Int.floor_eq_iff]
      norm_num
    rw [h0]
    ring
  · rw [add_comm, Int.floor_add_int]
    have h0 : ⌊(1/2 : ℚ)⌋ = 0 := by
      rw [Int.floor_eq_iff]
      norm_num
    rw [h0]
    ring

theorem screenSpan_nonneg (dim : ℤ) : 0 ≤ screenSpan dim := by
  unfold screenSpan
  have h : (0 : ℤ) ≤ max 0 (dim - 1) := le_max_left 0 (dim - 1)
  exact_mod_cast h

theorem minMaxAxisSource_eq_spec (mn mx : ℚ) (dim offset : ℤ) (raw : ℤ) :
    minMaxAxisSource mn mx dim offset (raw : ℚ) = minMaxAxisSpec mn mx dim offset raw := by
  unfold minMaxAxisSource minMaxAxisSpec
  by_cases hr : mx - mn ≤ 0
  · -- collapsed range: both sides pin to the offset
    rw [if_pos hr]
    dsimp only
    have hD := screenSpan_nonneg dim
    have htle : clampQ (raw : ℚ) mn mx - mn ≤ 0 := by
      unfold clampQ
      split_ifs with h1 h2 <;> linarith
    have hmain : clampQ (clampQ (raw : ℚ) mn mx - mn) 0 1 = 0 := by
      have h01 : (0 : ℚ) ≤ 1 := by norm_num
      have := clampQ_of_nonpos (clampQ (raw : ℚ) mn mx - mn) 1 htle (by norm_num)
      simpa using this
    have hs1 : clampQ ((clampQ (raw : ℚ) mn mx - mn) / 1) 0 1 * screenSpan dim + (offset : ℚ) = (offset : ℚ) := by
      rw [div_one, hmain]
      ring
    have hs2 : (clampQ (raw : ℚ) mn mx - mn) / 1 * screenSpan dim + (offset : ℚ) ≤ (offset : ℚ) := by
      rw [div_one]
      nlinarith
    rw [hs1]
    rw [clampQ_of_le ((offset : ℚ)) _ _ le_rfl (by linarith)]
    rw [clampQ_of_le_lower _ _ _ hs2 (by linarith)]
  · -- proper range: the inner unit clamp of the source is the identity
    rw [if_neg hr]
    dsimp only
    have hlt : mn < mx := by linarith
    have hlow : mn ≤ clampQ (raw : ℚ) mn mx := clampQ_lower _ _ _ hlt.le
    have hupp : clampQ (raw : ℚ) mn mx ≤ mx := clampQ_upper _ _ _ hlt.le
    have hu0 : 0 ≤ (clampQ (raw : ℚ) mn mx - mn) / (mx - mn) :=
      div_nonneg (by linarith) (by linarith)
    have hu1 : (clampQ (raw : ℚ) mn mx - mn) / (mx - mn) ≤ 1 := by
      rw [div_le_one (by linarith)]
      linarith
    rw [clampQ_of_le _ _ _ hu0 hu1]

theorem minMaxAxisSpec_collapsed (mn mx : ℚ) (dim offset : ℤ) (raw : ℤ)
    (h : mx ≤ mn) : minMaxAxisSpec mn mx dim offset raw = offset := by
  unfold minMaxAxisSpec
  rw [if_pos (by linarith : mx - mn ≤ 0)]
  dsimp only
  have hD := screenSpan_nonneg dim
  have htle : clampQ (raw : ℚ) mn mx - mn ≤ 0 := by
    unfold clampQ
    split_ifs with h1 h2 <;> linarith
  have hs2 : (clampQ (raw : ℚ) mn mx - mn) / 1 * screenSpan dim + (offset : ℚ) ≤ (offset : ℚ) := by
    rw [div_one]
    nlinarith
  rw [clampQ_of_le_lower _ _ _ hs2 (by linarith)]
  exact lroundQ_intCast offset

/-- C1: for every raw point and every MinMax calibration the calibration map
performs exactly the spec's pipeline (clamp to the min/max bounds, normalise
to the unit interval with a collapsed range treated as 1, scale by
max(0, screen_dim - 1), add the offset, clamp to the screen region, round to
nearest); and on a collapsed axis (max less or equal min) the produced axis
value is pinned to that axis's offset. -/
theorem applyCalibration_minmax_follows_spec (c : Calibration) (rx ry : ℤ)
    (h : c.mode = CalibrationMode.MinMax) :
    ApplyCalibration c rx ry =
      (minMaxAxisSpec c.min_x c.max_x c.screen_width c.x_offset rx,
       minMaxAxisSpec c.min_y c.max_y c.screen_height c.y_offset ry)
    ∧ (c.max_x ≤ c.min_x → (ApplyCalibration c rx ry).1 = c.x_offset)
    ∧ (c.max_y ≤ c.min_y → (ApplyCalibration c rx ry).2 = c.y_offset) := by
  have hmain : ApplyCalibration c rx ry =
      (minMaxAxisSpec c.min_x c.max_x c.screen_width c.x_offset rx,
       minMaxAxisSpec c.min_y c.max_y c.screen_height c.y_offset ry) := by
    unfold ApplyCalibration
    rw [h]
    exact Prod.ext (minMaxAxisSource_eq_spec _ _ _ _ rx) (minMaxAxisSource_eq_spec _ _ _ _ ry)
  refine ⟨hmain, ?_, ?_⟩
  · intro hx
    rw [hmain]
    exact minMaxAxisSpec_collapsed _ _ _ _ _ hx
  · intro hy
    rw [hmain]
    exact minMaxAxisSpec_collapsed _ _ _ _ _ hy

theorem addEventQueue_characterisation {α : Type} (q : List α) (e : α) :
    addEventQueue q e = if q.length < MAX_EVENTS then q ++ [e] else q.tail ++ [e] := by
  unfold addEventQueue MAX_EVENTS
  by_cases h : q.length < 32
  · rw [if_pos h]
    dsimp only
    rw [if_neg (by simp; omega)]
  · rw [if_neg h]
    dsimp only
    rw [if_pos (by simp; omega)]
    cases q with
    | nil => simp at h
    | cons a t => simp

theorem drainQueue_eq_self {α : Type} (q : List α) : drainQueue q = q := by
  induction q with
  | nil =>
    rw [drainQueue]
    simp [getNextEvent]
  | cons a t ih =>
    rw [drainQueue]
    simp only [getNextEvent]
    rw [ih]

theorem enqueueAll_eq_drop {α : Type} (es : List α) :
    enqueueAll es = es.drop (es.length - MAX_EVENTS) := by
  induction es using List.reverseRecOn with
  | nil => simp [enqueueAll]
  | append_singleton es e ih =>
    have hstep : enqueueAll (es ++ [e]) = addEventQueue (enqueueAll es) e := by
      unfold enqueueAll
      rw [List.foldl_append]
      rfl
    rw [hstep, ih, addEventQueue_characterisation]
    unfold MAX_EVENTS
    by_cases h : es.length < 32
    · have hd0 : es.length - 32 = 0 := by omega
      have hd1 : (es ++ [e]).length - 32 = 0 := by
        simp
        omega
      rw [hd0, hd1, List.drop_zero, List.drop_zero, if_pos h]
    · have hlen : (es.drop (es.length - 32)).length = 32 := by
        simp
        omega
      rw [if_neg (by rw [hlen]; omega)]
      have htail : (es.drop (es.length - 32)).tail = es.drop (es.length - 32 + 1) := by
        rw [← List.drop_one, List.drop_drop]
      rw [htail]
      have hidx : (es ++ [e]).length - 32 = es.length - 32 + 1 := by
        simp
        omega
      have hsplit : (es ++ [e]).drop ((es ++ [e]).length - 32) =
          es.drop ((es ++ [e]).length - 32) ++ [e] := by
        rw [List.drop_append_of_le_length (by simp)]
      rw [hsplit, hidx]

/-- C2: the event queue holds at most MAX_EVENTS = 32 events after every
sequence of enqueues; an enqueue into a full queue drops exactly the oldest
(head) element and keeps the rest in order (so overall the queue holds the
most recent 32 events, in arrival order); and `GetNextEvent` dequeues in
exactly the order the events were enqueued. -/
theorem eventQueue_bounded_fifo {α : Type} (es : List α) (q : List α) (e : α) :
    (enqueueAll es).length ≤ MAX_EVENTS
    ∧ enqueueAll es = es.drop (es.length - MAX_EVENTS)
    ∧ addEventQueue q e = (if q.length < MAX_EVENTS then q ++ [e] else q.tail ++ [e])
    ∧ drainQueue (enqueueAll es) = enqueueAll es := by
  refine ⟨?_, enqueueAll_eq_drop es, addEventQueue_characterisation q e, drainQueue_eq_self _⟩
  rw [enqueueAll_eq_drop es]
  simp
  omega

theorem getTouchCoordinatesAux_char (ts : List TouchData) :
    ∀ index count : ℤ, count ≤ index →
      getTouchCoordinatesAux ts index count =
        ((activeTouches ts).get? (index - count).toNat).map (fun d => (d.x, d.y)) := by
  induction ts with
  | nil => intro index count _; rfl
  | cons d rest ih =>
    intro index count hle
    unfold getTouchCoordinatesAux activeTouches
    by_cases ha : 0 ≤ d.tracking_id
    · rw [if_pos ha]
      have hfil : (d :: rest).filter isActive = d :: rest.filter isActive := by
        simp [isActive, List.filter_cons, decide_eq_true_eq, ha]
      by_cases heq : count = index
      · rw [if_pos heq]
        have h0 : (index - count).toNat = 0 := by omega
        rw [hfil, h0]
        rfl
      · rw [if_neg heq]
        have hle1 : count + 1 ≤ index := by omega
        rw [ih index (count + 1) hle1, hfil]
        have hsucc : (index - count).toNat = (index - (count + 1)).toNat + 1 := by omega
        rw [hsucc]
        rfl
    · rw [if_neg ha]
      have hfil : (d :: rest).filter isActive = rest.filter isActive := by
        simp [isActive, List.filter_cons, decide_eq_true_eq, ha]
      rw [ih index count hle, hfil]
      rfl

theorem getTouchCoordinatesAux_neg (ts : List TouchData) :
    ∀ index count : ℤ, index < count → getTouchCoordinatesAux ts index count = none := by
  induction ts with
  | nil => intro index count _; rfl
  | cons d rest ih =>
    intro index count hlt
    unfold getTouchCoordinatesAux
    by_cases ha : 0 ≤ d.tracking_id
    · rw [if_pos ha, if_neg (by omega)]
      exact ih index (count + 1) (by omega)
    · rw [if_neg ha]
      exact ih index count hlt

theorem getRawTouchCoordinatesAux_char (ts : List TouchData) :
    ∀ index count : ℤ, count ≤ index →
      getRawTouchCoordinatesAux ts index count =
        ((activeTouches ts).get? (index - count).toNat).map (fun d => (d.raw_x, d.raw_y)) := by
  induction ts with
  | nil => intro index count _; rfl
  | cons d rest ih =>
    intro index count hle
    unfold getRawTouchCoordinatesAux activeTouches
    by_cases ha : 0 ≤ d.tracking_id
    · rw [if_pos ha]
      have hfil : (d :: rest).filter isActive = d :: rest.filter isActive := by
        simp [isActive, List.filter_cons, decide_eq_true_eq, ha]
      by_cases heq : count = index
      · rw [if_pos heq]
        have h0 : (index - count).toNat = 0 := by omega
        rw [hfil, h0]
        rfl
      · rw [if_neg heq]
        have hle1 : count + 1 ≤ index := by omega
        rw [ih index (count + 1) hle1, hfil]
        have hsucc : (index - count).toNat = (index - (count + 1)).toNat + 1 := by omega
        rw [hsucc]
        rfl
    · rw [if_neg ha]
      have hfil : (d :: rest).filter isActive = rest.filter isActive := by
        simp [isActive, List.filter_cons, decide_eq_true_eq, ha]
      rw [ih index count hle, hfil]
      rfl

theorem getRawTouchCoordinatesAux_neg (ts : List TouchData) :
    ∀ index count : ℤ, index < count → getRawTouchCoordinatesAux ts index count = none := by
  induction ts with
  | nil => intro index count _; rfl
  | cons d rest ih =>
    intro index count hlt
    unfold getRawTouchCoordinatesAux
    by_cases ha : 0 ≤ d.tracking_id
    · rw [if_pos ha, if_neg (by omega)]
      exact ih index (count + 1) (by omega)
    · rw [if_neg ha]
      exact ih index count hlt

/-- C9: a negative index, or an index at or past the number of active
touches, makes `GetTouchCoordinates` and `GetRawTouchCoordinates` report
failure and produce no coordinates; a nonnegative index yields exactly the
index-th active slot, in slot order (so in particular success with that
slot's coordinates whenever the index is below the active count). -/
theorem getTouchCoordinates_safe (ts : List TouchData) (index : ℤ) :
    (index < 0 →
      GetTouchCoordinates ts index = none ∧ GetRawTouchCoordinates ts index = none)
    ∧ (0 ≤ index →
      GetTouchCoordinates ts index =
          ((activeTouches ts).get? index.toNat).map (fun d => (d.x, d.y))
        ∧ GetRawTouchCoordinates ts index =
          ((activeTouches ts).get? index.toNat).map (fun d => (d.raw_x, d.raw_y)))
    ∧ ((GetTouchCount ts : ℤ) ≤ index →
      GetTouchCoordinates ts index = none ∧ GetRawTouchCoordinates ts index = none) := by
  refine ⟨?_, ?_, ?_⟩
  · intro hneg
    exact ⟨getTouchCoordinatesAux_neg ts index 0 (by omega),
           getRawTouchCoordinatesAux_neg ts index 0 (by omega)⟩
  · intro hpos
    have h1 := getTouchCoordinatesAux_char ts index 0 (by omega)
    have h2 := getRawTouchCoordinatesAux_char ts index 0 (by omega)
    rw [sub_zero] at h1 h2
    exact ⟨h1, h2⟩
  · intro hge
    have hpos : 0 ≤ index := le_trans (by positivity) hge
    have h1 := getTouchCoordinatesAux_char ts index 0 (by omega)
    have h2 := getRawTouchCoordinatesAux_char ts index 0 (by omega)
    rw [sub_zero] at h1 h2
    have hnone : (activeTouches ts).get? index.toNat = none := by
      rw [List.get?_eq_none]
      have : GetTouchCount ts ≤ index.toNat := by omega
      exact this
    show getTouchCoordinatesAux ts index 0 = none ∧ getRawTouchCoordinatesAux ts index 0 = none
    rw [h1, h2, hnone]
    exact ⟨rfl, rfl⟩

/-- Witness for C9 at a concrete table: slot order is
active(id 3, at (7, 8), raw (70, 80)), inactive, active(id 5, at (9, 10)). -/
theorem getTouchCoordinates_safe_witness :
    (GetTouchCoordinates
        [{ tracking_id := 3, x := 7, y := 8, raw_x := 70, raw_y := 80 },
         { tracking_id := -1, x := 1, y := 1 },
         { tracking_id := 5, x := 9, y := 10, raw_x := 90, raw_y := 100 }] (-2) = none)
    ∧ (GetTouchCoordinates
        [{ tracking_id := 3, x := 7, y := 8, raw_x := 70, raw_y := 80 },
         { tracking_id := -1, x := 1, y := 1 },
         { tracking_id := 5, x := 9, y := 10, raw_x := 90, raw_y := 100 }] 1 = some (9, 10))
    ∧ (GetRawTouchCoordinates
        [{ tracking_id := 3, x := 7, y := 8, raw_x := 70, raw_y := 80 },
         { tracking_id := -1, x := 1, y := 1 },
         { tracking_id := 5, x := 9, y := 10, raw_x := 90, raw_y := 100 }] 2 = none) := by
  refine ⟨?_, ?_, ?_⟩
  · exact ((getTouchCoordinates_safe _ _).1 (by decide)).1
  · have h := ((getTouchCoordinates_safe
        [{ tracking_id := 3, x := 7, y := 8, raw_x := 70, raw_y := 80 },
         { tracking_id := -1, x := 1, y := 1 },
         { tracking_id := 5, x := 9, y := 10, raw_x := 90, raw_y := 100 }] 1).2.1 (by decide)).1
    rw [h]
    decide
  · exact ((getTouchCoordinates_safe _ _).2.2 (by decide)).2

/-- C3 counterexample: on the S1 stream the second emitted event is a
TouchUp with count 0, but its coordinates are (0, 0) — the centroid is
computed over the now-empty set of active touches — which is not within one
pixel of the claimed (400, 240). -/
theorem s1_touchUp_not_at_release_position :
    (s1Trace.map evSummary).getD 1 (EventType.Rotate, 0, 0, 0) = (EventType.TouchUp, 0, 0, 0)
    ∧ ¬ (((s1Trace.getD 1 default).x - 400).natAbs ≤ 1
          ∧ ((s1Trace.getD 1 default).y - 240).natAbs ≤ 1) := by
  decide

/-- C3 (amended): with MinMax calibration min=(0,0), max=(4095,4095),
screen=(800,480), offset=(0,0), the S1 stream emits exactly TouchDown with
count=1, x=400, y=240 followed by TouchUp with count=0, x=0, y=0: the
TouchDown carries the touch position, while the TouchUp centroid is the
integer mean over the (empty) set of still-active touches, hence zero. -/
theorem s1_trace_exact :
    s1Trace.map evSummary =
      [(EventType.TouchDown, 1, 400, 240), (EventType.TouchUp, 0, 0, 0)] := by
  decide

/-- C4: on a contact whose dominant-axis displacement from first contact
(calibrated x = 0, carried by the TouchDown event) to release (calibrated
x = 799, carried by the last TouchMove) is 799 px — far above
SWIPE_MIN_DISTANCE, with zero displacement on the other axis — the touch-up
sync emits no swipe event at all: the swipe test reads the
`gesture_start_touches_` snapshot frozen at touch-down (whose `x` and
`start_x` coincide up to the pre-contact stale value), so motion during the
contact is never consulted. -/
theorem swipe_scenario_emits_no_swipe :
    swipeTrace.map evSummary =
      [(EventType.TouchDown, 1, 0, 0), (EventType.TouchMove, 1, 390, 0),
       (EventType.TouchMove, 1, 799, 0), (EventType.TouchUp, 0, 0, 0)]
    ∧ swipeTrace.filter isSwipeEvent = []
    ∧ (swipeTrace.getD 2 default).x - (swipeTrace.getD 0 default).x = 799
    ∧ SWIPE_MIN_DISTANCE < 799 := by
  decide

/-- C7 counterexample: with the reader never started (so not running, no
source descriptor) and a usable uinput endpoint, `EnableMitm(true)` is not
rejected: it returns success and creates the synthetic device. -/
theorem enableMitm_not_rejected_when_stopped :
    initSysState.running = false
    ∧ (EnableMitm ⟨true, true⟩ initSysState true true).1 = true
    ∧ (EnableMitm ⟨true, true⟩ initSysState true true).2.uinput_open = true := by
  decide

/-- C7 (amended): when the reader is not started (running flag clear, source
descriptor closed), `RunCalibration` is rejected cleanly — it returns failure
with no state change — but `EnableMitm(true)` is not gated on the running
flag: it succeeds exactly when the synthetic device exists or can be created
(creating it even though the reader is stopped); it does acquire no exclusive
grab, because no source descriptor is open. -/
theorem stopped_reader_calibration_and_mitm (env : MitmEnv) (s : SysState) (g : Bool)
    (hrun : s.running = false) (hfd : s.fd_open = false) :
    RunCalibration s = some (false, s)
    ∧ (EnableMitm env s true g).1 = (s.uinput_open || env.uinput_available)
    ∧ (EnableMitm env s true g).2.uinput_open = (s.uinput_open || env.uinput_available)
    ∧ (EnableMitm env s true g).2.grabbed_source = s.grabbed_source := by
  refine ⟨?_, ?_⟩
  · unfold RunCalibration
    rw [if_pos hrun]
  · unfold EnableMitm InitUinput
    by_cases hu : s.uinput_open
    · simp [hu, hfd]
    · by_cases ha : env.uinput_available
      · simp [hu, ha, hfd]
      · simp [hu, ha]

/-- Witness for C7 (amended) at the freshly constructed reader with a usable
uinput endpoint. -/
theorem stopped_reader_calibration_and_mitm_witness :
    RunCalibration initSysState = some (false, initSysState)
    ∧ (EnableMitm ⟨true, false⟩ initSysState true false).1 = (initSysState.uinput_open || true)
    ∧ (EnableMitm ⟨true, false⟩ initSysState true false).2.uinput_open = (initSysState.uinput_open || true)
    ∧ (EnableMitm ⟨true, false⟩ initSysState true false).2.grabbed_source = initSysState.grabbed_source := by
  have h := stopped_reader_calibration_and_mitm ⟨true, false⟩ initSysState false rfl rfl
  exact ⟨h.1, h.2.1, h.2.2.1, h.2.2.2⟩

/-- C10: after `Stop`, the running flag is down and `WaitForEvent` reports
no event for every timeout value even while events remain queued — the queue
survives `Stop` untouched — while `GetNextEvent` still drains exactly those
queued events in FIFO order. -/
theorem stop_preserves_queue_waitForEvent_refuses (s : SysState) (timeout_ms : ℤ) :
    (Stop s).running = false
    ∧ WaitForEvent (Stop s) timeout_ms = WaitOutcome.ret none (Stop s).event_queue
    ∧ (Stop s).event_queue = s.event_queue
    ∧ drainQueue (Stop s).event_queue = (Stop s).event_queue := by
  have hr : (Stop s).running = false := by
    unfold Stop
    by_cases h : s.running
    · rw [if_pos h]
    · rw [if_neg h]
      simpa using h
  have hq : (Stop s).event_queue = s.event_queue := by
    unfold Stop
    by_cases h : s.running
    · rw [if_pos h]
    · rw [if_neg h]
  refine ⟨hr, ?_, hq, drainQueue_eq_self _⟩
  unfold WaitForEvent
  rw [if_pos hr]

/-- C5: `legacyFile` is exactly a well-formed legacy eight-integer
calibration line (min_x 5, max_x 4000, min_y 7, max_y 3999, screen 640x400,
offsets 10/20), yet `LoadCalibration` reports success while leaving every
bound, the screen size and the offsets at their previous (default) values:
`Config::LoadIni` returns true for every file that opens — the '='-free line
is merely skipped — so the legacy fallback never runs and the eight integers
are never read. -/
theorem legacy_calibration_file_ignored :
    parseLegacyCalibration legacyFile = some [5, 4000, 7, 3999, 640, 400, 10, 20]
    ∧ (LoadCalibration initCalibration legacyFile).1 = true
    ∧ (LoadCalibration initCalibration legacyFile).2.min_x = 0
    ∧ (LoadCalibration initCalibration legacyFile).2.max_x = 40640
    ∧ (LoadCalibration initCalibration legacyFile).2.min_y = 0
    ∧ (LoadCalibration initCalibration legacyFile).2.max_y = 30480
    ∧ (LoadCalibration initCalibration legacyFile).2.screen_width = 800
    ∧ (LoadCalibration initCalibration legacyFile).2.screen_height = 480
    ∧ (LoadCalibration initCalibration legacyFile).2.x_offset = 0
    ∧ (LoadCalibration initCalibration legacyFile).2.y_offset = 0 := by
  decide

theorem round6_close (q : ℚ) : |round6 q - q| ≤ 1/1000000 := by
  unfold round6
  have h1 : ((⌊q * 1000000 + (1/2 : ℚ)⌋ : ℤ) : ℚ) ≤ q * 1000000 + 1/2 := Int.floor_le _
  have h2 : q * 1000000 + 1/2 < ((⌊q * 1000000 + (1/2 : ℚ)⌋ : ℤ) : ℚ) + 1 :=
    Int.lt_floor_add_one _
  rw [abs_le]
  constructor
  · linarith
  · linarith

theorem toLowerStr_affine : toLowerStr ("affine") = "affine" := by decide

theorem ratTrunc_1920 : ratTrunc (1920 : ℚ) = 1920 := by decide

theorem ratTrunc_1080 : ratTrunc (1080 : ℚ) = 1080 := by decide

theorem ratTrunc_100 : ratTrunc (100 : ℚ) = 100 := by decide

theorem ratTrunc_50 : ratTrunc (50 : ℚ) = 50 := by decide

theorem find_setEntry_same (es : List (String × String × IniValue)) (sec key : String)
    (v : IniValue) :
    (setEntry es sec key v).find? (fun e => e.1 == sec && e.2.1 == key) = some (sec, key, v) := by
  induction es with
  | nil => simp [setEntry, List.find?]
  | cons e rest ih =>
    unfold setEntry
    by_cases h : (e.1 == sec && e.2.1 == key) = true
    · rw [if_pos h]
      simp [List.find?]
    · have hf : (e.1 == sec && e.2.1 == key) = false := by
        cases hx : (e.1 == sec && e.2.1 == key)
        · rfl
        · exact absurd hx h
      rw [if_neg h]
      simp [List.find?, hf, ih]

theorem find_setEntry_other (es : List (String × String × IniValue)) (sec key sec' key' : String)
    (v : IniValue) (h : (sec' == sec && key' == key) = false) :
    (setEntry es sec' key' v).find? (fun e => e.1 == sec && e.2.1 == key)
      = es.find? (fun e => e.1 == sec && e.2.1 == key) := by
  induction es with
  | nil => simp [setEntry, List.find?, h]
  | cons e rest ih =>
    unfold setEntry
    by_cases he : (e.1 == sec' && e.2.1 == key') = true
    · rw [if_pos he]
      rw [Bool.and_eq_true] at he
      have h1 : e.1 = sec' := by simpa [beq_iff_eq] using he.1
      have h2 : e.2.1 = key' := by simpa [beq_iff_eq] using he.2
      simp [List.find?, h, h1, h2]
    · rw [if_neg he]
      cases hp : (e.1 == sec && e.2.1 == key)
      · simp [List.find?, hp, ih]
      · simp [List.find?, hp]

theorem GetValue_SetValue_same (d : IniData) (sec key : String) (v : IniValue) :
    GetValue (SetValue d sec key v) sec key = some v := by
  unfold GetValue SetValue
  rw [find_setEntry_same]
  rfl

theorem GetValue_SetValue_other (d : IniData) (sec key sec' key' : String) (v : IniValue)
    (h : (sec' == sec && key' == key) = false) :
    GetValue (SetValue d sec' key' v) sec key = GetValue d sec key := by
  unfold GetValue SetValue
  rw [find_setEntry_other _ _ _ _ _ _ h]

theorem c6Reloaded_eval (a0 a1 a2 a3 a4 a5 : ℚ) :
    c6Reloaded a0 a1 a2 a3 a4 a5 =
      { mode := CalibrationMode.Affine,
        min_x := 0, max_x := 40640, min_y := 0, max_y := 30480,
        screen_width := 1920, screen_height := 1080,
        x_factor := 1, y_factor := 1,
        x_offset := 100, y_offset := 50,
        margin_percent := round6 (3/4),
        affine := ⟨round6 a0, round6 a1, round6 a2, round6 a3, round6 a4, round6 a5⟩ } := by
  have hmode : (c6Calibration a0 a1 a2 a3 a4 a5).mode = CalibrationMode.Affine := rfl
  have hminx : (c6Calibration a0 a1 a2 a3 a4 a5).min_x = 0 := rfl
  have hmaxx : (c6Calibration a0 a1 a2 a3 a4 a5).max_x = 40640 := rfl
  have hminy : (c6Calibration a0 a1 a2 a3 a4 a5).min_y = 0 := rfl
  have hmaxy : (c6Calibration a0 a1 a2 a3 a4 a5).max_y = 30480 := rfl
  have hsw : (c6Calibration a0 a1 a2 a3 a4 a5).screen_width = 1920 := rfl
  have hsh : (c6Calibration a0 a1 a2 a3 a4 a5).screen_height = 1080 := rfl
  have hox : (c6Calibration a0 a1 a2 a3 a4 a5).x_offset = 100 := rfl
  have hoy : (c6Calibration a0 a1 a2 a3 a4 a5).y_offset = 50 := rfl
  have hmg : (c6Calibration a0 a1 a2 a3 a4 a5).margin_percent = 3/4 := rfl
  have ha : (c6Calibration a0 a1 a2 a3 a4 a5).affine = ⟨a0, a1, a2, a3, a4, a5⟩ := rfl
  rw [c6Reloaded]
  simp only [SaveCalibration, hmode, hminx, hmaxx, hminy, hmaxy, hsw, hsh, hox, hoy, hmg, ha,
    reduceIte]
  simp [LoadCalibrationData, GetValue_SetValue_same, GetValue_SetValue_other,
    modeString, toLowerStr_affine, get_double, get_int,
    ratTrunc_1920, ratTrunc_1080, ratTrunc_100, ratTrunc_50, SetAffineCalibration,
    kCalibration, kAffine, kMetadata, kMode, kMinX, kMaxX, kMinY, kMaxY,
    kScreenWidth, kScreenHeight, kOffsetX, kOffsetY, kMarginPercent,
    kM0, kM1, kM2, kM3, kM4, kM5, kSavedWith]
  simp [hminx, hmaxx, hminy, hmaxy]

/-- C6: saving a calibration in affine mode (six arbitrary coefficients,
screen (1920, 1080), offset (100, 50), margin 0.75) and reloading the
produced file yields mode Affine with the six coefficients and the margin
within 10⁻⁶ of the saved values (the 6-decimal fixed serialisation rounds
within half of that) and the screen size and offsets exact. -/
theorem saveCalibration_roundtrip_affine (a0 a1 a2 a3 a4 a5 : ℚ) :
    (c6Reloaded a0 a1 a2 a3 a4 a5).mode = CalibrationMode.Affine
    ∧ |(c6Reloaded a0 a1 a2 a3 a4 a5).affine.m0 - a0| ≤ 1/1000000
    ∧ |(c6Reloaded a0 a1 a2 a3 a4 a5).affine.m1 - a1| ≤ 1/1000000
    ∧ |(c6Reloaded a0 a1 a2 a3 a4 a5).affine.m2 - a2| ≤ 1/1000000
    ∧ |(c6Reloaded a0 a1 a2 a3 a4 a5).affine.m3 - a3| ≤ 1/1000000
    ∧ |(c6Reloaded a0 a1 a2 a3 a4 a5).affine.m4 - a4| ≤ 1/1000000
    ∧ |(c6Reloaded a0 a1 a2 a3 a4 a5).affine.m5 - a5| ≤ 1/1000000
    ∧ (c6Reloaded a0 a1 a2 a3 a4 a5).screen_width = 1920
    ∧ (c6Reloaded a0 a1 a2 a3 a4 a5).screen_height = 1080
    ∧ (c6Reloaded a0 a1 a2 a3 a4 a5).x_offset = 100
    ∧ (c6Reloaded a0 a1 a2 a3 a4 a5).y_offset = 50
    ∧ |(c6Reloaded a0 a1 a2 a3 a4 a5).margin_percent - 3/4| ≤ 1/1000000 := by
  rw [c6Reloaded_eval]
  exact ⟨rfl, round6_close a0, round6_close a1, round6_close a2, round6_close a3,
    round6_close a4, round6_close a5, rfl, rfl, rfl, rfl, round6_close (3/4)⟩

theorem toLowerStr_right : toLowerStr ("right") = "right" := by decide

/-- C8: for a layout with positive desktop size and a monitor with rotation
"right" and positive scales, `computeCtm` is the row-major matrix
[0, -H/DW, (ox+H)/DW, W/DH, 0, oy/DH, 0, 0, 1] where W, H, ox, oy are the
scaled monitor width, height and offsets relative to the desktop origin; and
for every layout and monitor whatsoever the third row is [0, 0, 1]. -/
theorem computeCtm_right_rotation (layout : DesktopLayout) (monitor : MonitorInfo) :
    (0 < layout.width → 0 < layout.height → monitor.rotation = "right" →
      0 < monitor.scale_x → 0 < monitor.scale_y →
      computeCtm layout monitor =
        [0,
         -((monitor.height : ℚ) * monitor.scale_y) / (layout.width : ℚ),
         (((monitor.x - layout.origin_x : ℤ) : ℚ) * monitor.scale_x
           + (monitor.height : ℚ) * monitor.scale_y) / (layout.width : ℚ),
         (monitor.width : ℚ) * monitor.scale_x / (layout.height : ℚ),
         0,
         ((monitor.y - layout.origin_y : ℤ) : ℚ) * monitor.scale_y / (layout.height : ℚ),
         0, 0, 1])
    ∧ (computeCtm layout monitor).drop 6 = [0, 0, 1] := by
  constructor
  · intro hW hH hrot hsx hsy
    have hWq : ¬ ((layout.width : ℚ) ≤ 0) := by
      rw [not_le]
      exact_mod_cast hW
    have hHq : ¬ ((layout.height : ℚ) ≤ 0) := by
      rw [not_le]
      exact_mod_cast hH
    unfold computeCtm
    rw [hrot, toLowerStr_right]
    rw [if_neg hWq, if_neg hHq]
    dsimp only
    rw [if_pos hsx, if_pos hsx, if_pos hsy, if_pos hsy]
    rw [if_neg (by decide), if_neg (by decide), if_neg (by decide), if_pos (by decide)]
    simp [zero_div]
  · unfold computeCtm
    dsimp only
    rfl

/-- Witness for C8 at a concrete layout (1920 x 1080 desktop at the origin)
and monitor (800 x 600 at (100, 50), unit scales, rotation "right"). -/
theorem computeCtm_right_rotation_witness :
    computeCtm ⟨0, 0, 1920, 1080⟩ ⟨100, 50, 800, 600, 1, 1, "right"⟩ =
      [0, -5/16, 35/96, 20/27, 0, 5/108, 0, 0, 1] := by
  have h := (computeCtm_right_rotation ⟨0, 0, 1920, 1080⟩ ⟨100, 50, 800, 600, 1, 1, "right"⟩).1
    (by decide) (by decide) rfl (by decide) (by decide)
  rw [h]
  norm_num

/-- Witness for C1: a MinMax calibration with a collapsed x-range (min and
max both 0) and a proper y-range (0..4095 onto 480 px with zero offset). -/
theorem applyCalibration_minmax_witness :
    ApplyCalibration (SetCalibration initCalibration 0 0 0 4095 800 480) 123 2048 =
      (minMaxAxisSpec 0 0 800 0 123, minMaxAxisSpec 0 4095 480 0 2048)
    ∧ (ApplyCalibration (SetCalibration initCalibration 0 0 0 4095 800 480) 123 2048).1 = 0 := by
  have h := applyCalibration_minmax_follows_spec
    (SetCalibration initCalibration 0 0 0 4095 800 480) 123 2048 rfl
  exact ⟨h.1, h.2.1 (by decide)⟩

end TouchScreenDriver
